import Mathlib

/-!
# Shallow embedding of the `auth-serrvice` authentication core

This file embeds, in Lean 4, the token lifecycle and credential-verification
core of the `mitchivanov/authentication` repository:

* `infrastructure/utils/security.py` — token minting (`create_tokens`),
  password hashing wrappers (parametrised here, bcrypt is an external library);
* `infrastructure/middleware/auth.py` — `get_current_user` (session
  authentication) and `csrf_protect` (CSRF middleware);
* `application/services/auth_service.py` — `authenticate_user`,
  `refresh_token`, `logout`, and cookie handling;
* `application/services/user_service.py` — `get_user_info`, `update_user`;
* `domain/entities/user.py` — the `User` entity, `validate_password`,
  `validate`, `age`, `is_adult`;
* `domain/services/auth_service.py` — `verify_csrf_token`,
  `is_token_expired`;
* `api/routes/auth.py`, `api/routes/users.py` — the HTTP-outcome mapping of
  the routes the theorems talk about.

Time is modelled as seconds since the epoch (`Nat`).  The external JWT
library (python-jose) is not part of the repository's source; its
encode/decode pair is modelled from the spec (see `jwtDecode`).  Repository
(database) access is modelled as an explicit function argument returning
`Except RepoFault (Option UserT)`: `.error` models the backing store raising
an infrastructure exception, `.ok none` a missing row.
-/

namespace AuthService

/-! ## Configuration (`infrastructure/config/settings.py`) -/

def SECRET_KEY : String := "09d25e094faa6ca2556c87f29b2929ca004170af3400c48f53514f00961f201d"

def ACCESS_TOKEN_EXPIRE_MINUTES : Nat := 60

def REFRESH_TOKEN_EXPIRE_DAYS : Nat := 7

/-! ## Dates and the `User` entity (`domain/entities/user.py`) -/

/-- A calendar date, as Python's `datetime.date` triple. -/
structure DateT where
  year : Int
  month : Nat
  day : Nat
deriving DecidableEq, Repr

/-- Lexicographic `<` on `(month, day)` pairs, as Python tuple comparison. -/
def pairLt (a b : Nat × Nat) : Bool :=
  a.1 < b.1 || (a.1 == b.1 && a.2 < b.2)

/-- Lexicographic `<` on dates, as Python's `date` ordering. -/
def dateLt (a b : DateT) : Bool :=
  a.year < b.year || (a.year == b.year && pairLt (a.month, a.day) (b.month, b.day))

/-- The domain `User` entity (`domain/entities/user.py`). -/
structure UserT where
  username : String
  email : String
  password_hash : String
  date_of_birth : Option DateT := none
  bank_balance : Option Int := none
deriving DecidableEq, Repr

def passwordLengthMsg : String := "Пароль должен содержать от 8 до 20 символов"
def passwordLowerMsg : String := "Пароль должен содержать хотя бы одну строчную букву"
def passwordUpperMsg : String := "Пароль должен содержать хотя бы одну заглавную букву"
def passwordDigitMsg : String := "Пароль должен содержать хотя бы одну цифру"
def passwordSpecialMsg : String := "Пароль должен содержать хотя бы один спецсимвол (@$!%*?&#)"

/-- The literal special-character set `@$!%*?&#` of `validate_password`. -/
def isSpecialChar (c : Char) : Bool :=
  c = '@' || c = '$' || c = '!' || c = '%' || c = '*' || c = '?' || c = '&' || c = '#'

/-- `User.validate_password` (`domain/entities/user.py`): each of the five
rules is checked independently and appends its own message. -/
def validate_password (password : String) : List String :=
  (if password.data.length < 8 ∨ password.data.length > 20 then [passwordLengthMsg] else []) ++
  (if !(password.data.any Char.isLower) then [passwordLowerMsg] else []) ++
  (if !(password.data.any Char.isUpper) then [passwordUpperMsg] else []) ++
  (if !(password.data.any Char.isDigit) then [passwordDigitMsg] else []) ++
  (if !(password.data.any isSpecialChar) then [passwordSpecialMsg] else [])

def usernameShortMsg : String := "Имя пользователя должно содержать не менее 3 символов"
def emailInvalidMsg : String := "Email должен быть действительным адресом"
def passwordUnsetMsg : String := "Пароль должен быть установлен"
def dobFutureMsg : String := "Дата рождения не может быть в будущем"

/-- `User.validate` (`domain/entities/user.py`): object-level validation.
`today` is Python's `date.today()`, passed explicitly. -/
def UserT.validate (u : UserT) (today : DateT) : List String :=
  (if u.username = "" || u.username.data.length < 3 then [usernameShortMsg] else []) ++
  (if u.email = "" || !(u.email.data.any (· = '@')) then [emailInvalidMsg] else []) ++
  (if u.password_hash = "" then [passwordUnsetMsg] else []) ++
  (match u.date_of_birth with
   | some dob => if dateLt today dob then [dobFutureMsg] else []
   | none => [])

/-! ## Token codec (`infrastructure/utils/security.py` + python-jose) -/

/-- The claim set carried by a minted token: `sub`, `type`, `exp`, `jti`.
`sub` and `type` are optional because `payload.get(...)` yields `None` for a
missing claim; every token produced by `create_tokens` sets all four. -/
structure Claims where
  sub : Option String
  type : Option String
  exp : Nat
  jti : Nat
deriving DecidableEq, Repr

/-- A JWT on the wire: either a well-formed token signed with some key and
carrying a claim set, or an unparsable string.  The base64/HMAC wire format
is abstracted into this type; the signing key is carried so that signature
verification can be modelled. -/
inductive Jwt where
  | signed (key : String) (claims : Claims)
  | malformed (raw : String)
deriving DecidableEq, Repr

/-- The decode failures of python-jose's `jwt.decode`, all subclasses of
`JWTError`. -/
inductive JwtError where
  | malformed
  | badSignature
  | expired
deriving DecidableEq, Repr

/-- `str(e)` for each decode failure, as python-jose renders it. -/
def JwtError.message : JwtError → String
  | .malformed => "Not enough segments"
  | .badSignature => "Signature verification failed."
  | .expired => "Signature has expired."

/-- Modelled from the spec: python-jose's `jwt.decode(token, key,
algorithms=[ALGORITHM])` — an external library, not part of this repository's
source.  Per §4.2 "decode must verify signature AND expiry" and §8
"at `t' ≥ t+ttl` returns an expired-decode error": decoding fails on a
malformed token, on a signature made with a different key, and on a token
whose expiry instant has been reached; otherwise it returns the claims. -/
def jwtDecode (key : String) (now : Nat) : Jwt → Except JwtError Claims
  | .malformed _ => .error .malformed
  | .signed k c =>
      if k ≠ key then .error .badSignature
      else if c.exp ≤ now then .error .expired
      else .ok c

/-- `create_tokens` (`infrastructure/utils/security.py`): mints the
access/refresh pair for `data = {"sub": sub}` at instant `now`.  The two
fresh `uuid4` identifiers are passed in as `jti1`, `jti2`. -/
def create_tokens (sub : String) (now : Nat) (jti1 jti2 : Nat) : Jwt × Jwt :=
  (Jwt.signed SECRET_KEY
     { sub := some sub, type := some "access",
       exp := now + ACCESS_TOKEN_EXPIRE_MINUTES * 60, jti := jti1 },
   Jwt.signed SECRET_KEY
     { sub := some sub, type := some "refresh",
       exp := now + REFRESH_TOKEN_EXPIRE_DAYS * 24 * 60 * 60, jti := jti2 })

/-! ## Repository boundary -/

/-- An infrastructure fault: the backing store raised (connection refused,
timeout, ...). -/
inductive RepoFault where
  | unavailable
deriving DecidableEq, Repr

/-- The user directory as consumed by the services: `get_by_username`.
`.error` models the store raising; `.ok none` a missing row. -/
def Repo := String → Except RepoFault (Option UserT)

/-! ## Session authenticator (`infrastructure/middleware/auth.py`) -/

/-- The slice of an inbound request `get_current_user` looks at: the
`access_token` cookie and, failing that, the token of an
`Authorization: Bearer ...` header (the `"Bearer "`-prefix parsing of the
header string is abstracted into the `Option Jwt`). -/
structure AuthRequest where
  cookieAccessToken : Option Jwt
  bearerToken : Option Jwt
deriving DecidableEq, Repr

/-- Token extraction order of `get_current_user`: cookie first, else header. -/
def extractToken (r : AuthRequest) : Option Jwt :=
  match r.cookieAccessToken with
  | some t => some t
  | none => r.bearerToken

/-- `get_current_user` (`infrastructure/middleware/auth.py`): extract the
token, decode it requiring a non-empty `sub` and `type = "access"`, then
resolve the subject against the directory.  Only `JWTError` is caught (→
`None`); a directory fault propagates, hence the `Except RepoFault` result. -/
def get_current_user (repo : Repo) (now : Nat) (r : AuthRequest) :
    Except RepoFault (Option UserT) :=
  match extractToken r with
  | none => .ok none
  | some token =>
      match jwtDecode SECRET_KEY now token with
      | .error _ => .ok none
      | .ok payload =>
          match payload.sub with
          | none => .ok none
          | some username =>
              if username = "" || payload.type ≠ some "access" then .ok none
              else repo username

/-! ## Auth application service (`application/services/auth_service.py`) -/

/-- The `TokenSchema` response body (`domain/schemas/auth.py`). -/
structure TokenSchema where
  access_token : Jwt
  refresh_token : Jwt
  token_type : String := "bearer"
deriving DecidableEq, Repr

/-- An `HTTPException`: status code and detail message. -/
structure HTTPError where
  status : Nat
  detail : String
deriving DecidableEq, Repr

/-- `AuthApplicationService.authenticate_user`: look the user up, verify the
password, mint a token pair.  The surrounding `except Exception: return None`
turns a directory fault — and any other exception — into `None`.
`verify` is bcrypt's `checkpw` (external library), passed in as a function;
`now`, `jti1`, `jti2` feed `create_tokens`. -/
def authenticate_user (repo : Repo) (verify : String → String → Bool)
    (now jti1 jti2 : Nat) (username password : String) : Option TokenSchema :=
  match repo username with
  | .error _ => none
  | .ok none => none
  | .ok (some user) =>
      if !(verify password user.password_hash) then none
      else
        let pair := create_tokens user.username now jti1 jti2
        some { access_token := pair.1, refresh_token := pair.2 }

def invalidCredentialsError : HTTPError :=
  { status := 401, detail := "Неверное имя пользователя или пароль" }

/-- `POST /auth/login` (`api/routes/auth.py`): `authenticate_user`, with
`None` mapped to a 401 with a single fixed detail message. -/
def login_route (repo : Repo) (verify : String → String → Bool)
    (now jti1 jti2 : Nat) (username password : String) :
    Except HTTPError TokenSchema :=
  match authenticate_user repo verify now jti1 jti2 username password with
  | none => .error invalidCredentialsError
  | some tokens => .ok tokens

/-- `AuthDomainService.is_token_expired`: `datetime.utcnow() > expiration_time`. -/
def is_token_expired (now exp : Nat) : Bool :=
  now > exp

/-- `str(e)` for a repository infrastructure fault, as it would be
interpolated into the wrapped `ValueError` message. -/
def repoFaultMessage : RepoFault → String
  | .unavailable => "database unavailable"

/-- `AuthApplicationService.refresh_token`: decode, require
`type = "refresh"` and a truthy `sub`, re-check expiry, require the subject
to still exist, then mint a fresh pair.  Every exception raised inside the
`try` — the decode error, the explicit `ValueError`s, and a directory fault —
is caught by `except Exception as e` and re-raised as
`ValueError(f"Не удалось обновить токен: {str(e)}")`, modelled as the
`.error` message. -/
def refresh_token_op (repo : Repo) (now jti1 jti2 : Nat) (token : Jwt) :
    Except String TokenSchema :=
  match jwtDecode SECRET_KEY now token with
  | .error e => .error ("Не удалось обновить токен: " ++ e.message)
  | .ok payload =>
      if payload.type ≠ some "refresh" || payload.sub = none || payload.sub = some "" then
        .error "Не удалось обновить токен: Недействительный refresh токен"
      else
        match payload.sub with
        | none => .error "Не удалось обновить токен: Недействительный refresh токен"
        | some username =>
            if is_token_expired now payload.exp then
              .error "Не удалось обновить токен: Истекший refresh токен"
            else
              match repo username with
              | .error f =>
                  .error ("Не удалось обновить токен: " ++ repoFaultMessage f)
              | .ok none => .error "Не удалось обновить токен: Пользователь не найден"
              | .ok (some _) =>
                  let pair := create_tokens username now jti1 jti2
                  .ok { access_token := pair.1, refresh_token := pair.2 }

/-- `POST /auth/refresh` (`api/routes/auth.py`): the `ValueError` of
`refresh_token` becomes a 401 whose detail is the error's own message. -/
def refresh_route (repo : Repo) (now jti1 jti2 : Nat) (token : Jwt) :
    Except HTTPError TokenSchema :=
  match refresh_token_op repo now jti1 jti2 token with
  | .error msg => .error { status := 401, detail := msg }
  | .ok tokens => .ok tokens

/-! ## Logout (`AuthApplicationService.logout` + `POST /auth/logout`) -/

/-- The server-side state the auth service can reach: the user directory.
There is no token-revocation store in the source. -/
structure ServerState where
  directory : Repo

/-- The client-visible effect of `logout`: which cookies were deleted, and
the success message. -/
structure LogoutResponse where
  deletedCookies : List String
  message : String
deriving DecidableEq, Repr

/-- `AuthApplicationService.logout`: when a refresh token is supplied the
blacklist branch is an empty `pass` (TODO in the source); when a response
object is supplied the three auth cookies are deleted.  The server state is
returned untouched — the source performs no server-side mutation. -/
def logout (st : ServerState) (_refreshToken : Option Jwt) (hasResponse : Bool) :
    ServerState × LogoutResponse :=
  (st,
   { deletedCookies :=
       if hasResponse then ["access_token", "refresh_token", "csrf_token"] else [],
     message := "Вы успешно вышли из системы" })

/-! ## CSRF middleware (`infrastructure/middleware/auth.py::csrf_protect`,
`AuthDomainService.verify_csrf_token`) -/

/-- `AuthDomainService.verify_csrf_token`: `hmac.compare_digest`, a
constant-time equality of the two strings.  In the CSRF middleware path this
is dead code: the import preceding its call site fails (see
`csrf_protect`). -/
def verify_csrf_token (token1 token2 : String) : Bool :=
  token1 == token2

/-- The slice of a request `csrf_protect` looks at.  `none` models an absent
cookie/header; Python treats the empty string as falsy, so `some ""` follows
the missing-value branches as well. -/
structure CsrfRequest where
  method : String
  referer : Option String
  csrfCookie : Option String
  csrfHeader : Option String
deriving DecidableEq, Repr

/-- Outcome of the CSRF middleware: the request reached its handler, a 403
was raised with the given detail, or an exception escaped the middleware
unhandled (surfacing as a 5xx server error). -/
inductive CsrfOutcome where
  | passed
  | forbidden (detail : String)
  | serverError (detail : String)
deriving DecidableEq, Repr

/-- `sub in s` on strings: `needle` occurs as a contiguous substring. -/
def containsSub (hay needle : String) : Bool :=
  hayAux hay.data needle.data
where
  hayAux : List Char → List Char → Bool
    | hay, needle =>
        needle.isPrefixOf hay ||
          match hay with
          | [] => false
          | _ :: t => hayAux t needle

/-- The guard `request.headers.get("referer") and "/docs" in
request.headers.get("referer")`: a truthy (present, non-empty) referer
containing `"/docs"`. -/
def refererSkipsCsrf (referer : Option String) : Bool :=
  match referer with
  | some ref => ref ≠ "" && containsSub ref "/docs"
  | none => false

/-- The unhandled exception raised by the middleware's
`from application.services.auth_service import AuthService` — that module
defines only `AuthApplicationService`, and no `AuthService` exists anywhere
in the source, so the statement raises ImportError on every execution. -/
def importErrorDetail : String := "ImportError: cannot import name AuthService"

/-- `csrf_protect` (`infrastructure/middleware/auth.py`): requests whose
`referer` header is truthy and contains `"/docs"` skip the check entirely;
otherwise `POST`/`PUT`/`DELETE` requests must carry a truthy `csrf_token`
cookie and `X-CSRF-Token` header (else 403 "CSRF token missing").  When both
are present, the next statement is the import of the nonexistent
`AuthService` name, which raises ImportError before `verify_csrf_token` can
run: the request fails with an unhandled server error, the handler is never
reached, and the 403 "Invalid CSRF token" branch of the source is
unreachable. -/
def csrf_protect (r : CsrfRequest) : CsrfOutcome :=
  if refererSkipsCsrf r.referer then
    .passed
  else if r.method = "POST" || r.method = "PUT" || r.method = "DELETE" then
    match r.csrfCookie, r.csrfHeader with
    | some cookie, some header =>
        if cookie = "" || header = "" then .forbidden "CSRF token missing"
        else .serverError importErrorDetail
    | _, _ => .forbidden "CSRF token missing"
  else
    .passed

/-! ## User application service (`application/services/user_service.py`)
and the user routes (`api/routes/users.py`) -/

/-- The user directory's rows, for the operations that mutate it.  Lookup is
`get_by_username` / `get_by_email`; `dirUpdate` is `repository.update`,
replacing the row with the matching username. -/
def dirGetByUsername (users : List UserT) (username : String) : Option UserT :=
  users.find? (fun u => u.username = username)

def dirGetByEmail (users : List UserT) (email : String) : Option UserT :=
  users.find? (fun u => u.email = email)

def dirUpdate (users : List UserT) (user : UserT) : List UserT :=
  users.map (fun u => if u.username = user.username then user else u)

/-- The `UserInfoSchema` response body (`domain/schemas/user.py`). -/
structure UserInfoSchema where
  username : String
  email : String
  date_of_birth : Option DateT
deriving DecidableEq, Repr

/-- The error outcomes of `UserApplicationService.update_user`. -/
inductive UpdateError where
  /-- 404 "Пользователь не найден" -/
  | notFound
  /-- 409 "Пользователь с таким email уже существует" -/
  | emailConflict
  /-- 400 with `{"errors": errors}` -/
  | validationErrors (errors : List String)
deriving DecidableEq, Repr

/-- `UserApplicationService.update_user`: fetch the user (404 when absent);
when an email is supplied, reject it if another user already owns it, else
set it; when a password is supplied, reject it if `validate_password` is
non-empty, else store `hash_password` of it (`hashFn`, bcrypt with a fresh
salt, passed as a function); when a date of birth is supplied, set it and
reject if `user.validate()` reports errors.  Only after all branches succeed
is `repository.update` invoked; each `raise` leaves the directory as it was.
The result pairs the directory after the call with the outcome. -/
def update_user (users : List UserT) (today : DateT) (hashFn : String → String)
    (username : String) (email : Option String) (password : Option String)
    (dob : Option DateT) : List UserT × Except UpdateError UserInfoSchema :=
  match dirGetByUsername users username with
  | none => (users, .error .notFound)
  | some user0 =>
      let emailStep : Except UpdateError UserT :=
        match email with
        | none => .ok user0
        | some e =>
            match dirGetByEmail users e with
            | some other =>
                if other.username ≠ username then .error .emailConflict
                else .ok { user0 with email := e }
            | none => .ok { user0 with email := e }
      match emailStep with
      | .error err => (users, .error err)
      | .ok user1 =>
          let passwordStep : Except UpdateError UserT :=
            match password with
            | none => .ok user1
            | some p =>
                if validate_password p ≠ [] then
                  .error (.validationErrors (validate_password p))
                else .ok { user1 with password_hash := hashFn p }
          match passwordStep with
          | .error err => (users, .error err)
          | .ok user2 =>
              let dobStep : Except UpdateError UserT :=
                match dob with
                | none => .ok user2
                | some d =>
                    let u := { user2 with date_of_birth := some d }
                    if u.validate today ≠ [] then
                      .error (.validationErrors (u.validate today))
                    else .ok u
              match dobStep with
              | .error err => (users, .error err)
              | .ok user3 =>
                  (dirUpdate users user3,
                   .ok { username := user3.username, email := user3.email,
                         date_of_birth := user3.date_of_birth })

/-! ## Concrete fixtures used by the witness theorems -/

def aliceUser : UserT :=
  { username := "alice", email := "alice@example.com", password_hash := "h1" }

/-- A directory holding exactly `alice`, never faulting. -/
def sampleRepo : Repo :=
  fun u => if u = "alice" then .ok (some aliceUser) else .ok none

/-- A directory whose backing store is unreachable: every lookup raises. -/
def downRepo : Repo := fun _ => .error .unavailable

def sampleToday : DateT := { year := 2026, month := 10, day := 12 }

/-- A POST request with no referer and a matching non-empty CSRF pair. -/
def csrfMatchedRequest : CsrfRequest :=
  { method := "POST", referer := none,
    csrfCookie := some "t0k", csrfHeader := some "t0k" }

/-- A POST request with no referer, a CSRF cookie and no CSRF header. -/
def csrfNoHeaderRequest : CsrfRequest :=
  { method := "POST", referer := none,
    csrfCookie := some "t0k", csrfHeader := none }

end AuthService

namespace AuthService

/-! ## Theorems -/

/-- C1: token kinds are never confused.  A token minted as the access token
(type "access") is rejected by the refresh operation with the 401
refresh-invalid outcome, whatever the current time (before expiry the type
check fails, after expiry the decode fails); a token minted as the refresh
token (type "refresh") is rejected by session authentication, which yields
anonymous (`none`). -/
theorem token_kinds_never_confused (repo : Repo)
    (now mintTime jti1 jti2 jti3 jti4 : Nat) (sub : String) :
    (∃ msg, refresh_route repo now jti3 jti4
        (create_tokens sub mintTime jti1 jti2).1 =
          .error { status := 401, detail := msg })
    ∧ get_current_user repo now
        { cookieAccessToken := some (create_tokens sub mintTime jti1 jti2).2,
          bearerToken := none } = .ok none := by
  constructor
  · by_cases h : mintTime + ACCESS_TOKEN_EXPIRE_MINUTES * 60 ≤ now
    · exact ⟨"Не удалось обновить токен: " ++ JwtError.expired.message,
        by simp [refresh_route, refresh_token_op, jwtDecode, create_tokens, h]⟩
    · exact ⟨"Не удалось обновить токен: Недействительный refresh токен",
        by simp [refresh_route, refresh_token_op, jwtDecode, create_tokens, h]⟩
  · by_cases h : mintTime + REFRESH_TOKEN_EXPIRE_DAYS * 24 * 60 * 60 ≤ now
    · simp [get_current_user, extractToken, jwtDecode, create_tokens, h]
    · simp [get_current_user, extractToken, jwtDecode, create_tokens, h]

/-- C2: mint/decode round-trip.  Decoding the access token minted for
`sub` at time `t` succeeds at any `t' < t + access_ttl` and yields exactly
the claims `sub`, type "access", the expiry instant and the minted `jti`;
at any `t' ≥ t + access_ttl` the decode yields the expired-decode error. -/
theorem access_token_roundtrip (sub : String) (t tPrime jti1 jti2 : Nat) :
    (tPrime < t + ACCESS_TOKEN_EXPIRE_MINUTES * 60 →
      jwtDecode SECRET_KEY tPrime (create_tokens sub t jti1 jti2).1 =
        .ok { sub := some sub, type := some "access",
              exp := t + ACCESS_TOKEN_EXPIRE_MINUTES * 60, jti := jti1 })
    ∧ (t + ACCESS_TOKEN_EXPIRE_MINUTES * 60 ≤ tPrime →
      jwtDecode SECRET_KEY tPrime (create_tokens sub t jti1 jti2).1 =
        .error .expired) := by
  constructor
  · intro h
    simp [jwtDecode, create_tokens]
    omega
  · intro h
    simp [jwtDecode, create_tokens]
    omega

/-- C2 witness: at mint time 0, decode at time 10 yields the claims and
decode at time 3600 (= access ttl) yields the expired error. -/
theorem access_token_roundtrip_witness :
    jwtDecode SECRET_KEY 10 (create_tokens "alice" 0 5 6).1 =
      .ok { sub := some "alice", type := some "access", exp := 3600, jti := 5 }
    ∧ jwtDecode SECRET_KEY 3600 (create_tokens "alice" 0 5 6).1 = .error .expired :=
  ⟨(access_token_roundtrip "alice" 0 10 5 6).1 (by decide),
   (access_token_roundtrip "alice" 0 3600 5 6).2 (by decide)⟩

/-- C3: login fails uniformly.  A username the directory does not hold and a
present user whose stored hash does not verify against the supplied password
produce the very same outcome: 401 with the one fixed
invalid-credentials detail, nothing distinguishing the causes. -/
theorem login_fails_uniformly (repo : Repo) (verify : String → String → Bool)
    (now jti1 jti2 : Nat) (missingUser presentUser p1 p2 : String) (usr : UserT)
    (hmiss : repo missingUser = .ok none)
    (hfound : repo presentUser = .ok (some usr))
    (hbad : verify p2 usr.password_hash = false) :
    login_route repo verify now jti1 jti2 missingUser p1 =
      .error invalidCredentialsError
    ∧ login_route repo verify now jti1 jti2 presentUser p2 =
      .error invalidCredentialsError := by
  constructor <;> simp [login_route, authenticate_user, hmiss, hfound, hbad]

/-- C3 witness: against a directory holding only `alice`, login as absent
`bob` and login as `alice` with a non-verifying password both yield the
identical 401 outcome. -/
theorem login_fails_uniformly_witness :
    login_route sampleRepo (fun _ _ => false) 0 0 0 "bob" "pw" =
      .error invalidCredentialsError
    ∧ login_route sampleRepo (fun _ _ => false) 0 0 0 "alice" "wrong" =
      .error invalidCredentialsError :=
  login_fails_uniformly sampleRepo (fun _ _ => false) 0 0 0 "bob" "alice"
    "pw" "wrong" aliceUser rfl rfl rfl

/-- C4 counterexample: with the directory unreachable (every lookup raises an
infrastructure fault), login answers 401 with the invalid-credentials
detail — not a 5xx unavailable outcome — because
`authenticate_user` catches every exception and returns `None`. -/
theorem login_conflates_unavailable_counterexample :
    login_route downRepo (fun _ _ => true) 0 0 0 "alice" "pw" =
      .error invalidCredentialsError
    ∧ invalidCredentialsError.status = 401 :=
  ⟨rfl, rfl⟩

/-- C4 amended: when the repository lookup raises an infrastructure fault,
the catch-all in `authenticate_user` swallows it and the login route
produces the same 401 invalid-credentials outcome as a wrong password:
infrastructure failure is conflated with bad credentials. -/
theorem login_unavailable_conflated (repo : Repo)
    (verify : String → String → Bool) (now jti1 jti2 : Nat)
    (u p : String) (f : RepoFault) (hf : repo u = .error f) :
    login_route repo verify now jti1 jti2 u p = .error invalidCredentialsError := by
  simp [login_route, authenticate_user, hf]

/-- C4 amended witness: the faulting directory at a concrete login. -/
theorem login_unavailable_conflated_witness :
    login_route downRepo (fun _ _ => true) 0 0 0 "alice" "pw" =
      .error invalidCredentialsError :=
  login_unavailable_conflated downRepo (fun _ _ => true) 0 0 0 "alice" "pw"
    .unavailable rfl

set_option maxHeartbeats 1000000 in
/-- C5: `validate_password` returns the empty list exactly when all five
rules hold (length within [8,20], a lowercase letter, an uppercase letter, a
digit, a character of `@$!%*?&#`); and for every password violating exactly
one rule the result is precisely that rule's message and no other — the
rules are checked independently, never short-circuited. -/
theorem validate_password_rules (p : String) :
    (validate_password p = [] ↔
        ((8 ≤ p.data.length ∧ p.data.length ≤ 20) ∧
         (∃ c ∈ p.data, Char.isLower c) ∧ (∃ c ∈ p.data, Char.isUpper c) ∧
         (∃ c ∈ p.data, Char.isDigit c) ∧ (∃ c ∈ p.data, isSpecialChar c)))
    ∧ (¬(8 ≤ p.data.length ∧ p.data.length ≤ 20) ∧
         (∃ c ∈ p.data, Char.isLower c) ∧ (∃ c ∈ p.data, Char.isUpper c) ∧
         (∃ c ∈ p.data, Char.isDigit c) ∧ (∃ c ∈ p.data, isSpecialChar c) →
        validate_password p = [passwordLengthMsg])
    ∧ ((8 ≤ p.data.length ∧ p.data.length ≤ 20) ∧
         ¬(∃ c ∈ p.data, Char.isLower c) ∧ (∃ c ∈ p.data, Char.isUpper c) ∧
         (∃ c ∈ p.data, Char.isDigit c) ∧ (∃ c ∈ p.data, isSpecialChar c) →
        validate_password p = [passwordLowerMsg])
    ∧ ((8 ≤ p.data.length ∧ p.data.length ≤ 20) ∧
         (∃ c ∈ p.data, Char.isLower c) ∧ ¬(∃ c ∈ p.data, Char.isUpper c) ∧
         (∃ c ∈ p.data, Char.isDigit c) ∧ (∃ c ∈ p.data, isSpecialChar c) →
        validate_password p = [passwordUpperMsg])
    ∧ ((8 ≤ p.data.length ∧ p.data.length ≤ 20) ∧
         (∃ c ∈ p.data, Char.isLower c) ∧ (∃ c ∈ p.data, Char.isUpper c) ∧
         ¬(∃ c ∈ p.data, Char.isDigit c) ∧ (∃ c ∈ p.data, isSpecialChar c) →
        validate_password p = [passwordDigitMsg])
    ∧ ((8 ≤ p.data.length ∧ p.data.length ≤ 20) ∧
         (∃ c ∈ p.data, Char.isLower c) ∧ (∃ c ∈ p.data, Char.isUpper c) ∧
         (∃ c ∈ p.data, Char.isDigit c) ∧ ¬(∃ c ∈ p.data, isSpecialChar c) →
        validate_password p = [passwordSpecialMsg]) := by
  by_cases h1 : p.data.length < 8 ∨ p.data.length > 20 <;>
  cases h2 : p.data.any Char.isLower <;>
  cases h3 : p.data.any Char.isUpper <;>
  cases h4 : p.data.any Char.isDigit <;>
  cases h5 : p.data.any isSpecialChar <;>
    simp_all [validate_password, List.any_eq_true, List.any_eq_false] <;> try omega
  all_goals
    try obtain ⟨c2, hc2, hp2⟩ := h2
    try obtain ⟨c3, hc3, hp3⟩ := h3
    try obtain ⟨c4, hc4, hp4⟩ := h4
    try obtain ⟨c5, hc5, hp5⟩ := h5
    rw [if_neg (by omega)]
    repeat rw [if_neg (by intro hall; simp_all)]
    simp

/-- C5 witness: a password meeting all five rules validates to the empty
list, and one missing only an uppercase letter gets exactly that message. -/
theorem validate_password_rules_witness :
    validate_password "Abcdef1!" = [] ∧
    validate_password "abcdef1!" = [passwordUpperMsg] :=
  ⟨(validate_password_rules "Abcdef1!").1.mpr
      (by refine ⟨by decide, ⟨'b', by decide⟩, ⟨'A', by decide⟩,
            ⟨'1', by decide⟩, ⟨'!', by decide⟩⟩),
   (validate_password_rules "abcdef1!").2.2.2.1
      (by refine ⟨by decide, ⟨'a', by decide⟩, by decide,
            ⟨'1', by decide⟩, ⟨'!', by decide⟩⟩)⟩

/-- C6 counterexample: a POST request carrying neither the CSRF cookie nor
the CSRF header is passed straight through to its handler when its Referer
header contains "/docs" — the middleware's Swagger-UI bypass — so not every
state-changing request without a matching cookie/header pair receives 403. -/
theorem csrf_docs_bypass_counterexample :
    csrf_protect { method := "POST", referer := some "http://evil.example/docs",
                   csrfCookie := none, csrfHeader := none } = .passed := by
  rfl

/-- C6 amended: requests whose Referer contains "/docs" bypass CSRF
checking entirely; every other POST/PUT/DELETE is never passed through to
its handler at all — with the csrf_token cookie or X-CSRF-Token header
absent or empty it is rejected with 403 "CSRF token missing", and with both
present the middleware's import of the nonexistent `AuthService` name
raises ImportError before any token comparison, failing the request with an
unhandled server error, so even a matching pair does not reach the handler
and the source's 403 "Invalid CSRF token" branch is unreachable. -/
theorem csrf_state_changing_never_passes (r : CsrfRequest)
    (hm : r.method = "POST" ∨ r.method = "PUT" ∨ r.method = "DELETE")
    (href : refererSkipsCsrf r.referer = false) :
    csrf_protect r ≠ .passed
    ∧ ((∃ c hh, r.csrfCookie = some c ∧ r.csrfHeader = some hh ∧
          c ≠ "" ∧ hh ≠ "") →
        csrf_protect r = .serverError importErrorDetail)
    ∧ (¬(∃ c hh, r.csrfCookie = some c ∧ r.csrfHeader = some hh ∧
          c ≠ "" ∧ hh ≠ "") →
        csrf_protect r = .forbidden "CSRF token missing") := by
  obtain ⟨method, referer, cookie, header⟩ := r
  simp only at hm href ⊢
  have hred : csrf_protect ⟨method, referer, cookie, header⟩ =
      match cookie, header with
      | some c, some hh =>
          if c = "" ∨ hh = "" then CsrfOutcome.forbidden "CSRF token missing"
          else CsrfOutcome.serverError importErrorDetail
      | _, _ => CsrfOutcome.forbidden "CSRF token missing" := by
    unfold csrf_protect
    simp only [href, Bool.false_eq_true, if_false]
    rw [if_pos]
    · rcases cookie with _ | c <;> rcases header with _ | hh <;> simp
    · rcases hm with h | h | h <;> simp [h]
  rw [hred]
  rcases cookie with _ | c <;> rcases header with _ | hh
  · simp
  · simp
  · simp
  · by_cases hc : c = ""
    · subst hc
      simp
    · by_cases hh2 : hh = ""
      · subst hh2
        simp [hc]
      · simp [hc, hh2]

/-- C6 amended witness: without a docs Referer, a POST presenting a matching
non-empty cookie/header pair dies on the failing import (it does not pass),
and one missing the header gets the missing-token 403. -/
theorem csrf_state_changing_never_passes_witness :
    csrf_protect csrfMatchedRequest = .serverError importErrorDetail
    ∧ csrf_protect csrfNoHeaderRequest = .forbidden "CSRF token missing" :=
  ⟨(csrf_state_changing_never_passes csrfMatchedRequest
      (Or.inl rfl) rfl).2.1 ⟨"t0k", "t0k", rfl, rfl, by decide, by decide⟩,
   (csrf_state_changing_never_passes csrfNoHeaderRequest
      (Or.inl rfl) rfl).2.2 (by simp [csrfNoHeaderRequest])⟩

/-- C7: session authentication is fail-closed and yields anonymous rather
than erroring.  With no token it yields anonymous; with a token that fails
to decode (malformed, bad signature, expired) it yields anonymous; with
decoded claims missing a subject, carrying an empty subject, or whose type
is not "access" it yields anonymous; with a valid access token whose subject
no longer resolves (deleted user) it yields anonymous; and it yields a user
identity exactly for a well-signed, unexpired access token whose subject
still resolves. -/
theorem session_auth_fail_closed (repo : Repo) (now : Nat) :
    (∀ r, extractToken r = none → get_current_user repo now r = .ok none)
    ∧ (∀ r tok e, extractToken r = some tok →
        jwtDecode SECRET_KEY now tok = .error e →
        get_current_user repo now r = .ok none)
    ∧ (∀ r tok c, extractToken r = some tok →
        jwtDecode SECRET_KEY now tok = .ok c →
        (c.sub = none ∨ c.sub = some "" ∨ c.type ≠ some "access") →
        get_current_user repo now r = .ok none)
    ∧ (∀ r tok c u, extractToken r = some tok →
        jwtDecode SECRET_KEY now tok = .ok c →
        c.sub = some u → u ≠ "" → c.type = some "access" → repo u = .ok none →
        get_current_user repo now r = .ok none)
    ∧ (∀ r tok c u usr, extractToken r = some tok →
        jwtDecode SECRET_KEY now tok = .ok c →
        c.sub = some u → u ≠ "" → c.type = some "access" →
        repo u = .ok (some usr) →
        get_current_user repo now r = .ok (some usr)) := by
  refine ⟨?_, ?_, ?_, ?_, ?_⟩
  · intro r h
    simp [get_current_user, h]
  · intro r tok e h hd
    simp [get_current_user, h, hd]
  · intro r tok c h hd hbad
    rcases hbad with hb | hb | hb <;> simp [get_current_user, h, hd, hb]
    · rcases hsub : c.sub with _ | u
      · simp
      · simp [hb]
  · intro r tok c u hext hd hsub hne htype hrepo
    simp [get_current_user, hext, hd, hsub, hne, htype, hrepo]
  · intro r tok c u usr hext hd hsub hne htype hrepo
    simp [get_current_user, hext, hd, hsub, hne, htype, hrepo]

/-- C7 witness: a request with no token and one with an unparsable token
both yield anonymous against a directory with no users. -/
theorem session_auth_fail_closed_witness :
    get_current_user (fun _ => .ok none) 0
      { cookieAccessToken := none, bearerToken := none } = .ok none
    ∧ get_current_user (fun _ => .ok none) 0
      { cookieAccessToken := some (Jwt.malformed "xyz"), bearerToken := none } =
        .ok none :=
  ⟨(session_auth_fail_closed (fun _ => .ok none) 0).1
      { cookieAccessToken := none, bearerToken := none } rfl,
   (session_auth_fail_closed (fun _ => .ok none) 0).2.1
      { cookieAccessToken := some (Jwt.malformed "xyz"), bearerToken := none }
      (Jwt.malformed "xyz") .malformed rfl rfl⟩

/-- C8: logout performs no server-side invalidation.  For every server
state, supplied refresh token and response object, logout returns the state
untouched — so the refresh operation treats every token identically before
and after logout — and reports success. -/
theorem logout_no_server_side_effect (st : ServerState) (tok : Option Jwt)
    (hasResp : Bool) (rt : Jwt) (now jti1 jti2 : Nat) :
    (logout st tok hasResp).1 = st
    ∧ refresh_token_op ((logout st tok hasResp).1).directory now jti1 jti2 rt
        = refresh_token_op st.directory now jti1 jti2 rt
    ∧ (logout st tok hasResp).2.message = "Вы успешно вышли из системы" :=
  ⟨rfl, rfl, rfl⟩

/-- C10: profile update is atomic on error.  Whenever `update_user` ends in
any error outcome (user not found, email owned by another user, password
policy violation, or date-of-birth validation failure), the directory it
returns is exactly the directory it was given: `repository.update` was
never invoked. -/
theorem update_user_atomic_on_error (users : List UserT) (today : DateT)
    (hashFn : String → String) (username : String) (email : Option String)
    (password : Option String) (dob : Option DateT) (err : UpdateError)
    (h : (update_user users today hashFn username email password dob).2 =
      .error err) :
    (update_user users today hashFn username email password dob).1 = users := by
  revert h
  unfold update_user
  repeat' split
  all_goals intro h
  all_goals dsimp only at h ⊢
  all_goals try (split at h)
  all_goals simp_all

/-- C10 witness: updating a user absent from an empty directory fails with
not-found and leaves the directory empty. -/
theorem update_user_atomic_on_error_witness :
    (update_user [] sampleToday (fun p => p) "ghost" none none none).1 = [] :=
  update_user_atomic_on_error [] sampleToday (fun p => p) "ghost"
    none none none .notFound rfl

end AuthService
